import Mathlib

set_option maxHeartbeats 1000000

/-!
Verification model of the dracma-inviu pipeline (src/main.py, src/opt_token.py,
src/utils.py). Python values relevant to the claims are embedded shallowly:
JSON values as an inductive type, Python truthiness as a Bool function,
fallible Python code as Except / an outcome type that also records process
exits, and the external world (HTTP responses, the browser, the spreadsheet
backend, the artifact store) as explicit outcome parameters of each function.
-/

/-- A parsed JSON value, as produced by json.loads / response.json().
Numbers are modelled as integers; no claim depends on float behaviour. -/
inductive Json where
  | null
  | bool (b : Bool)
  | num (n : Int)
  | str (s : String)
  | arr (elems : List Json)
  | obj (fields : List (String × Json))

/-- Python truthiness of a JSON value: None, False, 0, empty string, empty
list and empty dict are falsy; everything else is truthy. -/
def truthy : Json → Bool
  | .null => false
  | .bool b => b
  | .num n => n != 0
  | .str s => s != ""
  | .arr xs => !xs.isEmpty
  | .obj fs => !fs.isEmpty

/-- dict.get k on an association list (objects produced by json.loads have
unique keys, so first-match lookup models dict lookup). -/
def alistGet {α : Type} : List (String × α) → String → Option α
  | [], _ => none
  | kv :: rest, k => if kv.1 = k then some kv.2 else alistGet rest k

/-- dict assignment d[k] = v: replace in place if the key exists (keeping its
position, as Python dicts do), else append. -/
def dictInsert {α : Type} : List (String × α) → String → α → List (String × α)
  | [], k, v => [(k, v)]
  | kv :: rest, k, v => if kv.1 = k then (k, v) :: rest else kv :: dictInsert rest k v

/-- Exceptions that the modelled Python code can raise. -/
inductive PyErr where
  | timeout (step : String)
  | runtimeError (msg : String)
  | systemExit (code : Nat)
  | attributeError
deriving DecidableEq

/-- Outcome of running a Python function that may terminate the whole process
via sys.exit. -/
inductive PyOutcome (α : Type) where
  | ok (a : α)
  | exited (code : Nat)

/-- Substring test on character lists (the Python `in` operator on str). -/
def listContainsSub (needle : List Char) : List Char → Bool
  | [] => needle.isEmpty
  | c :: rest => List.isPrefixOf needle (c :: rest) || listContainsSub needle rest

/-- The Python expression needle in hay, for strings. -/
def strContains (hay needle : String) : Bool := listContainsSub needle.data hay.data

/-- Drop characters satisfying p from both ends of a list. -/
def dropEdge (p : Char → Bool) (l : List Char) : List Char :=
  ((l.dropWhile p).reverse.dropWhile p).reverse

/-- Python str.strip(c) for a single strip character c. -/
def pyStripChar (c : Char) (s : String) : String :=
  String.mk (dropEdge (fun ch => ch == c) s.data)

/-- Python str.replace(a, b) for a single-character pattern (the only kind
the source uses): replace every occurrence of a by b. -/
def pyReplaceChar (a b : Char) (s : String) : String :=
  String.mk (s.data.map (fun c => if c == a then b else c))

/-- ASCII lowering of one character (models str.lower on the URLs and
keywords involved, which are ASCII). -/
def asciiLower (c : Char) : Char :=
  if 'A' ≤ c ∧ c ≤ 'Z' then Char.ofNat (c.toNat + 32) else c

/-- Python str.lower for ASCII text. -/
def pyLower (s : String) : String := String.mk (s.data.map asciiLower)

/- ===================================================================
   src/opt_token.py : the spreadsheet OTP backend
   =================================================================== -/

/-- Outcome of contacting the Google Sheets backend: either an auth/network
failure (an exception raised by the client libraries before or during the
range read), or the rows of cell values returned for range A1:B1. -/
inductive SheetOutcome where
  | backendFailure
  | values (rows : List (List String))

/-- The dict returned by read_data_from_sheets when it finds data. -/
structure SheetData where
  email_date : Option String
  token : Option String

/-- Python truthiness of an optional string (None and the empty string are
falsy). -/
def truthyOptStr : Option String → Bool
  | none => false
  | some s => s != ""

/-- opt_token.read_data_from_sheets: raises on backend failure (the except
block logs and re-raises); returns None when the first row is missing/empty
or both cells are falsy; else returns the email_date/token dict. -/
def read_data_from_sheets (o : SheetOutcome) : Except Unit (Option SheetData) :=
  match o with
  | .backendFailure => .error ()
  | .values rows =>
    match rows with
    | [] => .ok none
    | row :: _ =>
      match row with
      | [] => .ok none
      | _ =>
        let email_date := row.get? 0
        let token := row.get? 1
        if !truthyOptStr email_date && !truthyOptStr token then .ok none
        else .ok (some ⟨email_date, token⟩)

/-- opt_token.main: catches any Exception from read_data_from_sheets and
calls sys.exit(1); also calls sys.exit(1) when no data was found.
sys.exit raises SystemExit, which terminates the process. -/
def optTokenMain (o : SheetOutcome) : PyOutcome SheetData :=
  match read_data_from_sheets o with
  | .error _ => .exited 1
  | .ok none => .exited 1
  | .ok (some d) => .ok d

/-- opt_token.get_opt_token: calls main() and projects the token field. -/
def get_opt_token (o : SheetOutcome) : PyOutcome (Option String) :=
  match optTokenMain o with
  | .exited c => .exited c
  | .ok d => .ok d.token

/-- opt_token.read_token_from_sheets (the backward-compatibility reader that
does NOT go through main): backend failure propagates, absence of data is a
plain None return. -/
def read_token_from_sheets (o : SheetOutcome) : Except Unit (Option String) :=
  match read_data_from_sheets o with
  | .error e => .error e
  | .ok none => .ok none
  | .ok (some d) => .ok d.token

/- ===================================================================
   src/utils.py : load_env_file
   =================================================================== -/

/-- Split a line at the first occurrence of the = sign; none when the line
contains no = at all. Models the combination of the Python membership test
and line.split(chr(61), 1). -/
def splitFirstEq : List Char → Option (List Char × List Char)
  | [] => none
  | c :: rest =>
    if c == '=' then some ([], rest)
    else
      match splitFirstEq rest with
      | none => none
      | some (a, b) => some (c :: a, b)

/-- utils.load_env_file line parsing: strip the line, skip blanks and
comments, drop a leading export marker, require an = sign, then strip the
key and strip whitespace plus surrounding quotes from the value. -/
def parseEnvLine (line : String) : Option (String × String) :=
  let stripped := line.trim
  if stripped == "" then none
  else if stripped.startsWith "#" then none
  else
    let stripped := if stripped.startsWith "export " then (stripped.drop 7).trim else stripped
    match splitFirstEq stripped.data with
    | none => none
    | some (kl, vl) =>
      let key := (String.mk kl).trim
      let value := pyStripChar '\'' (pyStripChar '\"' ((String.mk vl).trim))
      some (key, value)

/-- One iteration of the load_env_file loop body over an environment
modelled as an association list (os.environ). When override is false and
the key is already present, the line is skipped. -/
def envStep (override : Bool) (e : List (String × String)) (line : String) :
    List (String × String) :=
  match parseEnvLine line with
  | none => e
  | some kv =>
    if !override && (alistGet e kv.1).isSome then e
    else dictInsert e kv.1 kv.2

/-- utils.load_env_file: no-op when the file does not exist, else folds the
loop body over the lines of the file. -/
def load_env_file (fileExists : Bool) (fileLines : List String) (override : Bool)
    (env : List (String × String)) : List (String × String) :=
  if fileExists then fileLines.foldl (envStep override) env else env

/- ===================================================================
   src/main.py : token extraction, refresh, batch fetch, login
   =================================================================== -/

/-- The token pair extracted from localStorage. Field values are JSON
values exactly as json.loads produced them. -/
structure TokenPair where
  idToken : Json
  refreshToken : Json

/-- main._extract_tokens_from_local_storage. rawValue is the result of the
localStorage.getItem evaluation (None when the key is missing); loads is the
json.loads collaborator (none models a JSONDecodeError, which the source
catches). A non-object JSON value makes .get raise AttributeError, which the
source also catches; both yield None. The pair is returned only when both
fields are present and truthy. -/
def _extract_tokens_from_local_storage (loads : String → Option Json) :
    Option String → Option TokenPair
  | none => none
  | some s =>
    if s == "" then none
    else
      match loads s with
      | none => none
      | some (.obj fields) =>
        match alistGet fields "idToken", alistGet fields "refreshToken" with
        | some i, some r => if truthy i && truthy r then some ⟨i, r⟩ else none
        | _, _ => none
      | some _ => none

/-- main.wait_for_token: sleeps, calls get_opt_token, and raises
RuntimeError when the returned token is falsy. A sys.exit inside
get_opt_token propagates as SystemExit. -/
def wait_for_token (o : SheetOutcome) : Except PyErr String :=
  match get_opt_token o with
  | .exited c => .error (.systemExit c)
  | .ok none => .error (.runtimeError "No OTP token received from get_opt_token")
  | .ok (some t) =>
    if t == "" then .error (.runtimeError "No OTP token received from get_opt_token")
    else .ok t

/-- Outcome of the POST to the refresh endpoint. requestException covers
transport errors, the non-2xx raise_for_status, and an unparseable JSON
body (requests raises its own JSONDecodeError, a RequestException); all are
caught by the source. success carries the parsed 2xx JSON body. -/
inductive RefreshOutcome where
  | requestException
  | success (body : Json)

/-- main.refresh_token: returns the new idToken when the 2xx JSON object
body has a truthy idToken field, None when the field is missing/falsy or on
any RequestException. A 2xx body that is not a JSON object makes
response_data.get raise AttributeError, which nothing catches. -/
def refresh_token (o : RefreshOutcome) : Except PyErr (Option Json) :=
  match o with
  | .requestException => .ok none
  | .success body =>
    match body with
    | .obj fields =>
      match alistGet fields "idToken" with
      | some v => if truthy v then .ok (some v) else .ok none
      | none => .ok none
    | _ => .error .attributeError

/-- The active-token selection in main.main: fall back to the original
idToken exactly when refresh_token returned a falsy (None) result. -/
def mainActiveToken (tokens : TokenPair) (o : RefreshOutcome) : Except PyErr Json :=
  match refresh_token o with
  | .error e => .error e
  | .ok none => .ok tokens.idToken
  | .ok (some t) => .ok t

/-- Outcome of one requests.request call in _make_api_call: fail covers
transport errors, the non-2xx raise_for_status and an unparseable body (all
RequestExceptions, caught and turned into None); success carries the parsed
2xx JSON body. -/
inductive CallOutcome where
  | fail
  | success (body : Json)

/-- main._make_api_call: the response JSON, or None on any
RequestException. -/
def _make_api_call : CallOutcome → Option Json
  | .fail => none
  | .success b => some b

/-- One endpoint descriptor from get_api_endpoints: the endpoint path, the
optional method key and the optional friendly name key. -/
structure ApiConfig where
  endpoint : String
  method : Option String
  name : Option String

/-- config.get("name", endpoint): the name used for logging, the results
dict and artifact naming. -/
def effName (c : ApiConfig) : String := c.name.getD c.endpoint

/-- config.get("method", "GET"). -/
def effMethod (c : ApiConfig) : String := c.method.getD "GET"

/-- The sanitized-endpoint fallback in _save_api_response:
endpoint.replace on slashes and backslashes, strip underscores, replace
question marks. -/
def sanitizeEndpoint (e : String) : String :=
  pyReplaceChar '?' '_'
    (pyStripChar '_' (pyReplaceChar '\\' '_' (pyReplaceChar '/' '_' e)))

/-- The filename base in _save_api_response: the name when it is truthy,
else the sanitized endpoint. -/
def filenameBase (name : Option String) (endpoint : String) : String :=
  match name with
  | some n => if n == "" then sanitizeEndpoint endpoint else n
  | none => sanitizeEndpoint endpoint

/-- The S3 object key built by _save_api_response. -/
def s3KeyFor (pfx : String) (name : Option String) (endpoint : String)
    (date : String) : String :=
  pfx ++ "/" ++ filenameBase name endpoint ++ "_" ++ date ++ ".json"

/-- The envelope _save_api_response serializes and uploads. -/
structure Artifact where
  timestamp : String
  method : String
  endpoint : String
  url : String
  data : Json

/-- main._save_api_response: the (key, envelope) pair written to the
artifact store. ts is datetime.now().isoformat(), date is the local date
formatted YYYYMMDD; both are parameters because they come from the clock.
The S3 upload itself is the external artifact-store collaborator and is
modelled as succeeding (a ClientError would be re-raised, per the source). -/
def _save_api_response (pfx base ts date : String) (endpoint : String)
    (responseData : Json) (method : String) (name : Option String) :
    String × Artifact :=
  (s3KeyFor pfx name endpoint date,
   ⟨ts, method, endpoint, base ++ endpoint, responseData⟩)

/-- The loop of main.perform_api_calls: results accumulates the results
dict in insertion order, arts the artifact-store writes. A response is
persisted and recorded only when it is truthy (the if response: test);
falsy responses, including None from a failed call, are recorded as None. -/
def performApiCallsGo (pfx base ts date : String) :
    List (ApiConfig × CallOutcome) → List (String × Option Json) →
    List (String × Artifact) → List (String × Option Json) × List (String × Artifact)
  | [], results, arts => (results, arts)
  | (cfg, o) :: rest, results, arts =>
    match _make_api_call o with
    | some b =>
      if truthy b then
        performApiCallsGo pfx base ts date rest
          (dictInsert results (effName cfg) (some b))
          (arts ++ [_save_api_response pfx base ts date cfg.endpoint b
                      (effMethod cfg) (some (effName cfg))])
      else
        performApiCallsGo pfx base ts date rest
          (dictInsert results (effName cfg) none) arts
    | none =>
      performApiCallsGo pfx base ts date rest
        (dictInsert results (effName cfg) none) arts

/-- main.perform_api_calls: run the batch over all descriptors, starting
from an empty results dict and no artifact writes. -/
def perform_api_calls (pfx base ts date : String)
    (items : List (ApiConfig × CallOutcome)) :
    List (String × Option Json) × List (String × Artifact) :=
  performApiCallsGo pfx base ts date items [] []

/-- Zero-padded two-digit field of strftime. -/
def pad2 (n : Nat) : String := if n < 10 then "0" ++ toString n else toString n

/-- strftime of a local date as YYYYMMDD (for years of four digits). -/
def yyyymmdd (y m d : Nat) : String := toString y ++ pad2 m ++ pad2 d

/-- The external world of one perform_login run: which bounded waits
succeed, the observed HTTP statuses (none models an expect_response
timeout), the OTP spreadsheet contents, the final page URL, the
localStorage value under the tokens key, and the json.loads collaborator. -/
structure LoginWorld where
  gotoOk : Bool
  emailSelectorOk : Bool
  passwordSelectorOk : Bool
  loginEnableOk : Bool
  loginResponse : Option Nat
  challengeUrlOk : Bool
  otpSelectorOk : Bool
  otpSheet : SheetOutcome
  challengeEnableOk : Bool
  challengeResponse : Option Nat
  exitChallengeOk : Bool
  finalUrl : String
  storageRaw : Option String
  loads : String → Option Json

/-- main._fill_login_form: wait for the email input then the password
input; a timeout at either wait raises. -/
def _fill_login_form (w : LoginWorld) : Except PyErr Unit :=
  if w.emailSelectorOk then
    if w.passwordSelectorOk then .ok ()
    else .error (.timeout "password-selector")
  else .error (.timeout "email-selector")

/-- main._submit_login: wait for the submit control to enable, register the
login response expectation concurrently with the click, and return the
response status; a timeout at either step raises. -/
def _submit_login (w : LoginWorld) : Except PyErr Nat :=
  if w.loginEnableOk then
    match w.loginResponse with
    | some s => .ok s
    | none => .error (.timeout "login-response")
  else .error (.timeout "login-enable")

/-- main._handle_otp_challenge: wait for the challenge URL, the OTP input,
the OTP code from wait_for_token, the re-enabled submit control, the
challenge response, and the navigation out of the challenge URL; any
timeout (and any exception out of wait_for_token) raises. -/
def _handle_otp_challenge (w : LoginWorld) : Except PyErr Nat :=
  if w.challengeUrlOk then
    if w.otpSelectorOk then
      match wait_for_token w.otpSheet with
      | .error e => .error e
      | .ok _ =>
        if w.challengeEnableOk then
          match w.challengeResponse with
          | some s =>
            if w.exitChallengeOk then .ok s
            else .error (.timeout "exit-challenge")
          | none => .error (.timeout "challenge-response")
        else .error (.timeout "challenge-enable")
    else .error (.timeout "otp-selector")
  else .error (.timeout "challenge-url")

/-- main.perform_login: the full login flow. There is no except block in
the source, so every exception of a sub-step propagates to the caller; the
None returns come only from the explicit status/URL/token checks. -/
def perform_login (w : LoginWorld) : Except PyErr (Option TokenPair) :=
  if w.gotoOk then
    match _fill_login_form w with
    | .error e => .error e
    | .ok _ =>
      match _submit_login w with
      | .error e => .error e
      | .ok loginStatus =>
        if loginStatus == 200 then
          match _handle_otp_challenge w with
          | .error e => .error e
          | .ok challengeStatus =>
            if challengeStatus == 200
                && !(strContains (pyLower w.finalUrl) "/login") then
              match _extract_tokens_from_local_storage w.loads w.storageRaw with
              | some tokens => .ok (some tokens)
              | none => .ok none
            else .ok none
        else .ok none
  else .error (.timeout "goto")

/-- All waits up to and including the login response expectation succeed. -/
def preLoginOk (w : LoginWorld) : Bool :=
  w.gotoOk && w.emailSelectorOk && w.passwordSelectorOk && w.loginEnableOk
    && w.loginResponse.isSome

/-- wait_for_token returned a code (rather than raising). -/
def otpFetchOk (w : LoginWorld) : Bool :=
  match wait_for_token w.otpSheet with
  | .ok _ => true
  | .error _ => false

/-- All challenge-phase waits and the OTP retrieval succeed. -/
def challengeWaitsOk (w : LoginWorld) : Bool :=
  w.challengeUrlOk && w.otpSelectorOk && otpFetchOk w && w.challengeEnableOk
    && w.challengeResponse.isSome && w.exitChallengeOk

/- ===================================================================
   OTP code extraction (Mailbox backend) - modelled from the spec
   =================================================================== -/

/-- Modelled from the spec: the OTP code-extraction algorithm of the
Mailbox backend. The repository code implementing this algorithm is not
among the three files under src (src/opt_token.py only implements the
spreadsheet backend, which returns the code cell verbatim), so the
extraction is embedded from the words of spec section 4.2. A digit run is
a maximal run of consecutive digits, kept with the reversed text that
precedes it and the character that follows it. -/
structure DigitRun where
  revPre : List Char
  digits : List Char
  next : Option Char

/-- Modelled from the spec: collect the maximal digit runs of a text.
revPre accumulates the already-seen prefix reversed, cur the digits of the
run currently being read, reversed. -/
def digitRunsGo : List Char → List Char → List Char → List DigitRun
  | _, [], [] => []
  | revPre, c :: cur, [] => [⟨revPre, (c :: cur).reverse, none⟩]
  | revPre, cur, c :: rest =>
    if c.isDigit then digitRunsGo revPre (c :: cur) rest
    else
      match cur with
      | [] => digitRunsGo (c :: revPre) [] rest
      | d :: ds => ⟨revPre, (d :: ds).reverse, some c⟩ :: digitRunsGo (c :: (d :: ds ++ revPre)) [] rest

/-- Modelled from the spec: all maximal digit runs of a text, in order. -/
def digitRuns (s : List Char) : List DigitRun := digitRunsGo [] [] s

/-- Modelled from the spec: the case-insensitive keywords of strategy 3. -/
def otpKeywords : List String := ["código", "code", "otp", "token"]

/-- Modelled from the spec: a run is keyword-prefixed when, skipping
whitespace and an optional colon backwards from the run, a keyword ends
right before it (ASCII case folding). -/
def keywordBefore (revPre : List Char) : Bool :=
  let p := revPre.dropWhile (fun c => c.isWhitespace)
  let p := match p with
    | ':' :: t => t
    | _ => p
  let p := (p.dropWhile (fun c => c.isWhitespace)).map Char.toLower
  otpKeywords.any (fun kw => List.isPrefixOf (kw.data.reverse.map Char.toLower) p)

/-- Modelled from the spec, strategy 1: a bare run of exactly six digits. -/
def strat1 (r : DigitRun) : Bool := r.digits.length == 6

/-- Modelled from the spec, strategy 2: a bare run of four to eight digits. -/
def strat2 (r : DigitRun) : Bool :=
  decide (4 ≤ r.digits.length) && decide (r.digits.length ≤ 8)

/-- Modelled from the spec, strategy 3: a four-to-eight digit run
immediately preceded by a keyword. -/
def strat3 (r : DigitRun) : Bool := strat2 r && keywordBefore r.revPre

/-- Modelled from the spec, strategy 4: a four-to-eight digit run followed
by whitespace or end of text. -/
def strat4 (r : DigitRun) : Bool :=
  strat2 r &&
    (match r.next with
     | none => true
     | some c => c.isWhitespace)

/-- Modelled from the spec: among the runs a strategy matched, a run of
six or more digits is preferred over shorter ones, before first-match
order. -/
def pickPreferred (rs : List DigitRun) : Option (List Char) :=
  match rs.find? (fun r => decide (6 ≤ r.digits.length)) with
  | some r => some r.digits
  | none => rs.head?.map DigitRun.digits

/-- Modelled from the spec: the candidate a single strategy yields. -/
def stratPick (p : DigitRun → Bool) (t : List Char) : Option (List Char) :=
  pickPreferred ((digitRuns t).filter p)

/-- Modelled from the spec: the five-step extraction in strict priority
order; absent when no strategy matches. -/
def extract_code (text : String) : Option String :=
  let t := text.data
  match stratPick strat1 t with
  | some d => some (String.mk d)
  | none =>
    match stratPick strat2 t with
    | some d => some (String.mk d)
    | none =>
      match stratPick strat3 t with
      | some d => some (String.mk d)
      | none =>
        match stratPick strat4 t with
        | some d => some (String.mk d)
        | none => none

/- ===================================================================
   Characterization helpers and concrete worlds used in the theorems
   =================================================================== -/

/-- The results-dict entry the batch loop records for one descriptor. -/
def stepResult (it : ApiConfig × CallOutcome) : String × Option Json :=
  (effName it.1,
   match _make_api_call it.2 with
   | some b => if truthy b then some b else none
   | none => none)

/-- The artifact-store write the batch loop performs for one descriptor,
when any. -/
def stepArtifact (pfx base ts date : String) (it : ApiConfig × CallOutcome) :
    Option (String × Artifact) :=
  match _make_api_call it.2 with
  | some b =>
    if truthy b then
      some (_save_api_response pfx base ts date it.1.endpoint b (effMethod it.1)
              (some (effName it.1)))
    else none
  | none => none

/-- A login world where the email-field wait times out and everything else
would succeed. -/
def loginWorldEmailTimeout : LoginWorld :=
  ⟨true, false, true, true, some 200, true, true,
   SheetOutcome.values [["2024-01-01", "123456"]], true, some 200, true,
   "https://x/home", none, fun _ => none⟩

/-- A login world where every wait succeeds, both statuses are 200 and the
final URL has left the login path, but localStorage has no value under the
tokens key. -/
def loginWorldNoStoredTokens : LoginWorld :=
  ⟨true, true, true, true, some 200, true, true,
   SheetOutcome.values [["2024-01-01", "123456"]], true, some 200, true,
   "https://x/home", none, fun _ => none⟩

/- ===================================================================
   Helper lemmas
   =================================================================== -/

lemma alistGet_dictInsert_ne {α : Type} (e : List (String × α)) (k k' : String)
    (v' : α) (h : k ≠ k') : alistGet (dictInsert e k' v') k = alistGet e k := by
  induction e with
  | nil =>
    simp only [dictInsert, alistGet]
    rw [if_neg (fun hh => h hh.symm)]
  | cons kv rest ih =>
    by_cases hk : kv.1 = k'
    · simp only [dictInsert, if_pos hk, alistGet]
      rw [if_neg (fun hh => h hh.symm), if_neg (fun hh => h (hk.symm.trans hh).symm)]
    · simp only [dictInsert, if_neg hk, alistGet]
      by_cases hkk : kv.1 = k
      · rw [if_pos hkk, if_pos hkk]
      · rw [if_neg hkk, if_neg hkk, ih]

lemma envStep_keep (e : List (String × String)) (line k : String) (v : String)
    (h : alistGet e k = some v) : alistGet (envStep false e line) k = some v := by
  unfold envStep
  cases hp : parseEnvLine line with
  | none => exact h
  | some kv =>
    by_cases hk : kv.1 = k
    · have : (alistGet e kv.1).isSome = true := by rw [hk, h]; rfl
      simp only [Bool.not_false, Bool.true_and, this, if_pos]
      exact h
    · by_cases hs : (alistGet e kv.1).isSome = true
      · simp only [Bool.not_false, Bool.true_and, hs, if_pos]
        exact h
      · simp only [Bool.not_false, Bool.true_and, hs, if_neg, Bool.false_eq_true,
          not_false_eq_true]
        rw [alistGet_dictInsert_ne _ _ _ _ (fun hh => hk (hh.symm))]
        exact h

lemma foldl_envStep_keep (fileLines : List String) :
    ∀ (e : List (String × String)) (k v : String), alistGet e k = some v →
      alistGet (fileLines.foldl (envStep false) e) k = some v := by
  induction fileLines with
  | nil => intro e k v h; exact h
  | cons line rest ih =>
    intro e k v h
    exact ih _ _ _ (envStep_keep e line k v h)

/-- Full characterization of _extract_tokens_from_local_storage: it yields a
pair exactly when the storage value is present and non-empty, parses to a
JSON object, and both token fields are present and truthy. -/
lemma extract_tokens_char (loads : String → Option Json) (rawValue : Option String)
    (tp : TokenPair) :
    _extract_tokens_from_local_storage loads rawValue = some tp ↔
      ∃ s fields,
        rawValue = some s ∧ s ≠ "" ∧ loads s = some (Json.obj fields) ∧
        alistGet fields "idToken" = some tp.idToken ∧ truthy tp.idToken = true ∧
        alistGet fields "refreshToken" = some tp.refreshToken ∧
        truthy tp.refreshToken = true := by
  constructor
  · intro h
    cases rawValue with
    | none => simp [_extract_tokens_from_local_storage] at h
    | some s =>
      simp only [_extract_tokens_from_local_storage] at h
      split at h
      · exact absurd h (by simp)
      · rename_i hs
        split at h
        · exact absurd h (by simp)
        · rename_i fields hl
          split at h
          · rename_i i r hi hr
            split at h
            · rename_i ht
              have hpair : tp = ⟨i, r⟩ := by cases h; rfl
              obtain ⟨ht1, ht2⟩ := Bool.and_eq_true_iff.mp ht
              refine ⟨s, fields, rfl, by simpa using hs, hl, ?_, ?_, ?_, ?_⟩
              · rw [hpair]; exact hi
              · rw [hpair]; exact ht1
              · rw [hpair]; exact hr
              · rw [hpair]; exact ht2
            · exact absurd h (by simp)
          · exact absurd h (by simp)
        · exact absurd h (by simp)
  · rintro ⟨s, fields, rfl, hne, hl, hi, ht1, hr, ht2⟩
    simp only [_extract_tokens_from_local_storage, hl, hi, hr, ht1, ht2]
    rw [if_neg (by simp [hne])]
    simp only [ht1, ht2, Bool.and_self, if_pos]

/-- refresh_token only hands back truthy token values. -/
lemma refresh_some_truthy (o : RefreshOutcome) (v : Json)
    (h : refresh_token o = Except.ok (some v)) : truthy v = true := by
  cases o with
  | requestException => simp [refresh_token] at h
  | success body =>
    cases body with
    | obj fields =>
      cases hi : alistGet fields "idToken" with
      | none => simp [refresh_token, hi] at h
      | some w =>
        by_cases ht : truthy w
        · simp only [refresh_token, hi, ht, if_pos] at h
          cases h; exact ht
        · simp [refresh_token, hi, ht] at h
    | null => simp [refresh_token] at h
    | bool b => simp [refresh_token] at h
    | num n => simp [refresh_token] at h
    | str s => simp [refresh_token] at h
    | arr xs => simp [refresh_token] at h

/- ===================================================================
   Claim theorems
   =================================================================== -/

/-- C10: For every environment variable key already present in the process
environment, calling load_env_file with override left at false leaves that
variable at its old value regardless of the file contents; a key whose value
changed must have been absent from the environment before the call. -/
theorem c10_no_override_preserves_env :
    (∀ (env : List (String × String)) (fileLines : List String) (k v : String),
       alistGet env k = some v →
       alistGet (load_env_file true fileLines false env) k = some v) ∧
    (∀ (env : List (String × String)) (fileLines : List String) (k : String),
       alistGet (load_env_file true fileLines false env) k ≠ alistGet env k →
       alistGet env k = none) := by
  constructor
  · intro env fileLines k v h
    unfold load_env_file
    rw [if_pos rfl]
    exact foldl_envStep_keep fileLines env k v h
  · intro env fileLines k h
    cases hg : alistGet env k with
    | none => rfl
    | some v =>
      exact absurd (by
        unfold load_env_file
        rw [if_pos rfl, foldl_envStep_keep fileLines env k v hg, hg]) h

/-- C10 witness: with EMAIL already set to old and a .env line assigning it
to new, the loaded environment still maps EMAIL to old. -/
theorem c10_witness :
    alistGet (load_env_file true ["EMAIL=new@x"] false [("EMAIL", "old@x")])
      "EMAIL" = some "old@x" :=
  c10_no_override_preserves_env.1 [("EMAIL", "old@x")] ["EMAIL=new@x"] "EMAIL"
    "old@x" rfl

/-- C2: the code as written contradicts the claim. get_opt_token routes
through opt_token.main, which calls sys.exit(1) both when the backend raises
and when no code is found in the sheet, so an empty first row terminates the
process instead of returning a normal absent result; the
backward-compatibility reader read_token_from_sheets exhibits exactly the
claimed semantics (backend failure propagates as a hard error, absent data is
a plain None), and the caller wait_for_token in main.py expects a falsy
return it would turn into a RuntimeError, evidencing that the sys.exit path
is a slip. -/
theorem c2_code_bug_eval :
    get_opt_token (SheetOutcome.values []) = PyOutcome.exited 1 ∧
    get_opt_token (SheetOutcome.values [[]]) = PyOutcome.exited 1 ∧
    get_opt_token SheetOutcome.backendFailure = PyOutcome.exited 1 ∧
    read_token_from_sheets (SheetOutcome.values []) = Except.ok none ∧
    read_token_from_sheets SheetOutcome.backendFailure = Except.error () ∧
    wait_for_token (SheetOutcome.values []) = Except.error (PyErr.systemExit 1) :=
  ⟨rfl, rfl, rfl, rfl, rfl, rfl⟩

/-- C5: token-pair extraction returns the pair exactly when the storage
value is present, parses to a JSON object, and both fields are present and
truthy (for string fields, truthy means non-empty); in every other case it
returns absent, and by construction it never returns a partially-filled
pair. -/
theorem c5_extract_tokens_iff :
    (∀ (loads : String → Option Json) (rawValue : Option String) (tp : TokenPair),
       _extract_tokens_from_local_storage loads rawValue = some tp ↔
         ∃ s fields,
           rawValue = some s ∧ s ≠ "" ∧ loads s = some (Json.obj fields) ∧
           alistGet fields "idToken" = some tp.idToken ∧ truthy tp.idToken = true ∧
           alistGet fields "refreshToken" = some tp.refreshToken ∧
           truthy tp.refreshToken = true) ∧
    (∀ s : String, truthy (Json.str s) = true ↔ s ≠ "") := by
  constructor
  · exact extract_tokens_char
  · intro s
    simp [truthy]

/-- C4 counterexample: a 2xx refresh response whose JSON body is an array
is a success response lacking idToken, yet refresh_token raises
AttributeError (response_data.get on a list) instead of returning None. -/
theorem c4_counterexample :
    refresh_token (RefreshOutcome.success (Json.arr [])) =
      Except.error PyErr.attributeError ∧
    refresh_token (RefreshOutcome.success (Json.arr [])) ≠ Except.ok none :=
  ⟨rfl, fun h => Except.noConfusion h⟩

/-- C4 amended: refresh_token returns absent on transport failure, non-2xx,
unparseable body, or a 2xx JSON object without a truthy idToken, without
raising; a 2xx body that is not a JSON object raises. Whenever refresh
returns absent the pipeline falls back to the original idToken, and the
active token is truthy whenever login produced a pair by extraction. -/
theorem c4_amended_refresh_fallback :
    (refresh_token RefreshOutcome.requestException = Except.ok none) ∧
    (∀ fields : List (String × Json),
       alistGet fields "idToken" = none →
       refresh_token (RefreshOutcome.success (Json.obj fields)) = Except.ok none) ∧
    (∀ (fields : List (String × Json)) (v : Json),
       alistGet fields "idToken" = some v → truthy v = false →
       refresh_token (RefreshOutcome.success (Json.obj fields)) = Except.ok none) ∧
    (∀ (tokens : TokenPair) (o : RefreshOutcome),
       refresh_token o = Except.ok none →
       mainActiveToken tokens o = Except.ok tokens.idToken) ∧
    (∀ (loads : String → Option Json) (raw : Option String) (tp : TokenPair)
       (o : RefreshOutcome) (t : Json),
       _extract_tokens_from_local_storage loads raw = some tp →
       mainActiveToken tp o = Except.ok t → truthy t = true) := by
  refine ⟨rfl, ?_, ?_, ?_, ?_⟩
  · intro fields hi
    simp [refresh_token, hi]
  · intro fields v hi ht
    simp [refresh_token, hi, ht]
  · intro tokens o h
    unfold mainActiveToken
    rw [h]
  · intro loads raw tp o t hext hact
    unfold mainActiveToken at hact
    cases ho : refresh_token o with
    | error e => rw [ho] at hact; exact absurd hact (by simp)
    | ok r =>
      cases r with
      | none =>
        rw [ho] at hact
        have ht : t = tp.idToken := by cases hact; rfl
        obtain ⟨s, fields, _, _, _, _, h1, _, _⟩ :=
          (extract_tokens_char loads raw tp).mp hext
        rw [ht]; exact h1
      | some v =>
        rw [ho] at hact
        have ht : t = v := by cases hact; rfl
        rw [ht]; exact refresh_some_truthy o v ho

/-- C4 witness: a concrete refresh failure falls back to the original
idToken. -/
theorem c4_witness :
    mainActiveToken ⟨Json.str "tokA", Json.str "tokB"⟩
      RefreshOutcome.requestException = Except.ok (Json.str "tokA") :=
  c4_amended_refresh_fallback.2.2.2.1 ⟨Json.str "tokA", Json.str "tokB"⟩
    RefreshOutcome.requestException rfl

lemma dictInsert_fresh {α : Type} (m : List (String × α)) (k : String) (v : α)
    (h : ∀ p ∈ m, p.1 ≠ k) : dictInsert m k v = m ++ [(k, v)] := by
  induction m with
  | nil => rfl
  | cons kv rest ih =>
    simp only [dictInsert]
    rw [if_neg (h kv (List.mem_cons_self kv rest))]
    rw [ih (fun p hp => h p (List.mem_cons_of_mem kv hp))]
    rfl

lemma performApiCallsGo_arts (pfx base ts date : String) :
    ∀ (items : List (ApiConfig × CallOutcome)) (results : List (String × Option Json))
      (arts : List (String × Artifact)),
      (performApiCallsGo pfx base ts date items results arts).2 =
        arts ++ items.filterMap (stepArtifact pfx base ts date) := by
  intro items
  induction items with
  | nil => intro results arts; simp [performApiCallsGo]
  | cons it rest ih =>
    intro results arts
    obtain ⟨cfg, o⟩ := it
    cases o with
    | fail =>
      simp only [performApiCallsGo, _make_api_call, List.filterMap_cons, stepArtifact]
      exact ih _ _
    | success b =>
      by_cases hb : truthy b
      · simp only [performApiCallsGo, _make_api_call, hb, if_pos, List.filterMap_cons,
          stepArtifact]
        rw [ih]
        simp [List.append_assoc]
      · simp only [performApiCallsGo, _make_api_call, List.filterMap_cons, stepArtifact,
          hb]
        simp only [Bool.false_eq_true, if_neg, ite_false]
        exact ih _ _

lemma performApiCallsGo_results (pfx base ts date : String) :
    ∀ (items : List (ApiConfig × CallOutcome)) (results : List (String × Option Json))
      (arts : List (String × Artifact)),
      (∀ it ∈ items, ∀ p ∈ results, p.1 ≠ effName it.1) →
      (items.map (fun it => effName it.1)).Nodup →
      (performApiCallsGo pfx base ts date items results arts).1 =
        results ++ items.map stepResult := by
  intro items
  induction items with
  | nil => intro results arts _ _; simp [performApiCallsGo]
  | cons it rest ih =>
    intro results arts hfresh hnodup
    obtain ⟨cfg, o⟩ := it
    rw [List.map_cons, List.nodup_cons] at hnodup
    obtain ⟨hnotin, hnodup'⟩ := hnodup
    have hins : ∀ v, dictInsert results (effName cfg) v = results ++ [(effName cfg, v)] :=
      fun v => dictInsert_fresh results (effName cfg) v
        (fun p hp => hfresh (cfg, o) (List.mem_cons_self _ _) p hp)
    have hfresh' : ∀ v, ∀ it2 ∈ rest, ∀ p ∈ results ++ [(effName cfg, v)],
        p.1 ≠ effName it2.1 := by
      intro v it2 h2 p hp
      rcases List.mem_append.mp hp with hp1 | hp2
      · exact hfresh it2 (List.mem_cons_of_mem _ h2) p hp1
      · have hpv : p = (effName cfg, v) := List.mem_singleton.mp hp2
        rw [hpv]
        intro hcontra
        apply hnotin
        have hc2 : effName (cfg, o).1 = effName it2.1 := hcontra
        rw [hc2]
        exact List.mem_map_of_mem (fun it => effName it.1) h2
    cases o with
    | fail =>
      simp only [performApiCallsGo, _make_api_call]
      rw [hins none, ih _ _ (hfresh' none) hnodup']
      simp [stepResult, _make_api_call, List.append_assoc]
    | success b =>
      by_cases hb : truthy b
      · simp only [performApiCallsGo, _make_api_call, hb, if_pos]
        rw [hins (some b), ih _ _ (hfresh' (some b)) hnodup']
        simp [stepResult, _make_api_call, hb, List.append_assoc]
      · simp only [performApiCallsGo, _make_api_call, hb, Bool.false_eq_true, if_neg,
          ite_false]
        rw [hins none, ih _ _ (hfresh' none) hnodup']
        simp [stepResult, _make_api_call, hb, List.append_assoc]

/-- The results dict of one batch run, as a list characterization. -/
lemma perform_api_calls_results (pfx base ts date : String)
    (items : List (ApiConfig × CallOutcome))
    (hnodup : (items.map (fun it => effName it.1)).Nodup) :
    (perform_api_calls pfx base ts date items).1 = items.map stepResult := by
  unfold perform_api_calls
  rw [performApiCallsGo_results pfx base ts date items [] [] (by intro it _ p hp; cases hp)
    hnodup]
  rfl

/-- The artifact writes of one batch run, as a list characterization. -/
lemma perform_api_calls_arts (pfx base ts date : String)
    (items : List (ApiConfig × CallOutcome)) :
    (perform_api_calls pfx base ts date items).2 =
      items.filterMap (stepArtifact pfx base ts date) := by
  unfold perform_api_calls
  rw [performApiCallsGo_arts]
  rfl

/-- C3 counterexample: a batch of two descriptors where exactly one HTTP
call fails (the other returns 2xx with JSON body null) produces two entries
marked failed, not one — the truthiness test in perform_api_calls also marks
falsy 2xx bodies as failed. -/
theorem c3_counterexample :
    (perform_api_calls "raw" "https://api" "ts" "20240305"
        [(⟨"/a", some "GET", some "a"⟩, CallOutcome.fail),
         (⟨"/b", some "GET", some "b"⟩, CallOutcome.success Json.null)]).1
      = [("a", none), ("b", none)] ∧
    List.countP (fun it => match it.2 with | CallOutcome.fail => true | _ => false)
        [((⟨"/a", some "GET", some "a"⟩ : ApiConfig), CallOutcome.fail),
         (⟨"/b", some "GET", some "b"⟩, CallOutcome.success Json.null)] = 1 ∧
    List.countP (fun p => p.2.isNone)
        [("a", (none : Option Json)), ("b", none)] = 2 :=
  ⟨rfl, rfl, rfl⟩

/-- C3 amended: over descriptors with pairwise-distinct effective names the
batch returns exactly one entry per descriptor and never short-circuits
(every descriptor name appears in the results), and the entries marked
failed are exactly those whose call failed or whose 2xx JSON body was falsy
(empty object or array, null, zero, empty string, false). -/
theorem c3_amended_batch_totality (pfx base ts date : String)
    (items : List (ApiConfig × CallOutcome))
    (hnodup : (items.map (fun it => effName it.1)).Nodup) :
    (perform_api_calls pfx base ts date items).1.length = items.length ∧
    (perform_api_calls pfx base ts date items).1.countP (fun p => p.2.isNone) =
      items.countP (fun it =>
        match _make_api_call it.2 with
        | some b => !truthy b
        | none => true) ∧
    ∀ it ∈ items,
      effName it.1 ∈ (perform_api_calls pfx base ts date items).1.map Prod.fst := by
  have hres := perform_api_calls_results pfx base ts date items hnodup
  refine ⟨?_, ?_, ?_⟩
  · rw [hres, List.length_map]
  · rw [hres, List.countP_map]
    apply List.countP_congr
    intro it _
    obtain ⟨cfg, o⟩ := it
    cases o with
    | fail => rfl
    | success b =>
      by_cases hb : truthy b
      · simp [stepResult, _make_api_call, hb, Function.comp]
      · simp [stepResult, _make_api_call, hb, Function.comp]
  · intro it hit
    rw [hres, List.map_map]
    exact List.mem_map.mpr ⟨it, hit, rfl⟩

/-- C3 witness: a singleton batch with a failing call still yields one
result entry. -/
theorem c3_witness :
    (perform_api_calls "raw" "https://api" "t" "d"
        [(⟨"/a", some "GET", some "a"⟩, CallOutcome.fail)]).1.length = 1 :=
  (c3_amended_batch_totality "raw" "https://api" "t" "d"
      [(⟨"/a", some "GET", some "a"⟩, CallOutcome.fail)] (by simp)).1

/-- C9 counterexample: a descriptor whose call returns 2xx with the
parseable JSON body of an empty object is recorded as failed (None) and
nothing is persisted, contradicting the claim that empty-object bodies are
recorded ok. -/
theorem c9_counterexample :
    perform_api_calls "raw" "https://api" "ts" "20240305"
        [(⟨"/e", some "GET", some "a"⟩, CallOutcome.success (Json.obj []))]
      = ([("a", none)], []) :=
  rfl

/-- C9 amended: for every descriptor whose call returns a 2xx parseable
JSON body that is truthy, the batch persists the envelope of timestamp,
method, endpoint, url and data under the computed key and records the
result as ok; falsy bodies are recorded as failed and not persisted (as the
C9 counterexample shows). -/
theorem c9_amended_persist_truthy (pfx base ts date : String)
    (items : List (ApiConfig × CallOutcome)) (cfg : ApiConfig) (b : Json)
    (hb : truthy b = true) (hmem : (cfg, CallOutcome.success b) ∈ items)
    (hnodup : (items.map (fun it => effName it.1)).Nodup) :
    (s3KeyFor pfx (some (effName cfg)) cfg.endpoint date,
      (⟨ts, effMethod cfg, cfg.endpoint, base ++ cfg.endpoint, b⟩ : Artifact)) ∈
        (perform_api_calls pfx base ts date items).2 ∧
    (effName cfg, some b) ∈ (perform_api_calls pfx base ts date items).1 := by
  constructor
  · rw [perform_api_calls_arts]
    refine List.mem_filterMap.mpr ⟨(cfg, CallOutcome.success b), hmem, ?_⟩
    simp [stepArtifact, _make_api_call, hb, _save_api_response]
  · rw [perform_api_calls_results pfx base ts date items hnodup]
    refine List.mem_map.mpr ⟨(cfg, CallOutcome.success b), hmem, ?_⟩
    simp [stepResult, _make_api_call, hb]

/-- C9 witness: a concrete truthy 2xx body is persisted under its key and
recorded ok. -/
theorem c9_witness :
    ("raw/e1_20240305.json",
      (⟨"ts", "GET", "/e", "https://api/e", Json.str "x"⟩ : Artifact)) ∈
        (perform_api_calls "raw" "https://api" "ts" "20240305"
          [(⟨"/e", some "GET", some "e1"⟩, CallOutcome.success (Json.str "x"))]).2 ∧
    ("e1", some (Json.str "x")) ∈
        (perform_api_calls "raw" "https://api" "ts" "20240305"
          [(⟨"/e", some "GET", some "e1"⟩, CallOutcome.success (Json.str "x"))]).1 :=
  c9_amended_persist_truthy "raw" "https://api" "ts" "20240305"
    [(⟨"/e", some "GET", some "e1"⟩, CallOutcome.success (Json.str "x"))]
    ⟨"/e", some "GET", some "e1"⟩ (Json.str "x") rfl (List.mem_singleton.mpr rfl)
    (by simp)

/-- C7 counterexample: a descriptor without a friendly name is persisted
under the raw, unsanitized endpoint path (the batch fetcher defaults the
name to the endpoint string before the sanitization fallback of the saver
can apply), not under the sanitized form the claim states. -/
theorem c7_counterexample :
    (perform_api_calls "raw" "https://api" "ts" "20240305"
        [(⟨"/advisor/clients/all", some "GET", none⟩,
          CallOutcome.success (Json.obj [("x", Json.str "1")]))]).2
      = [("raw//advisor/clients/all_20240305.json",
          ⟨"ts", "GET", "/advisor/clients/all", "https://api/advisor/clients/all",
           Json.obj [("x", Json.str "1")]⟩)] ∧
    sanitizeEndpoint "/advisor/clients/all" = "advisor_clients_all" ∧
    "raw//advisor/clients/all_20240305.json" ≠
      "raw/" ++ sanitizeEndpoint "/advisor/clients/all" ++ "_20240305.json" := by
  refine ⟨rfl, rfl, ?_⟩
  decide

/-- C7 amended: every persisted artifact for a named-or-not descriptor goes
under the key of pfx, slash, effective name, underscore, YYYYMMDD local
date, .json — where the effective name is the friendly name when given and
the raw endpoint path otherwise; and the saldos example keeps its claimed
key. -/
theorem c7_amended_artifact_key (pfx base ts date : String)
    (items : List (ApiConfig × CallOutcome)) (cfg : ApiConfig) (b : Json)
    (hb : truthy b = true) (hmem : (cfg, CallOutcome.success b) ∈ items)
    (hname : effName cfg ≠ "") :
    (∃ art, (s3KeyFor pfx (some (effName cfg)) cfg.endpoint date, art) ∈
        (perform_api_calls pfx base ts date items).2) ∧
    s3KeyFor pfx (some (effName cfg)) cfg.endpoint date =
      pfx ++ "/" ++ cfg.name.getD cfg.endpoint ++ "_" ++ date ++ ".json" ∧
    s3KeyFor "raw" (some "saldos") "/advisor/clients/balances/v2"
        (yyyymmdd 2024 3 5) = "raw/saldos_20240305.json" := by
  refine ⟨?_, ?_, rfl⟩
  · refine ⟨⟨ts, effMethod cfg, cfg.endpoint, base ++ cfg.endpoint, b⟩, ?_⟩
    rw [perform_api_calls_arts]
    refine List.mem_filterMap.mpr ⟨(cfg, CallOutcome.success b), hmem, ?_⟩
    simp [stepArtifact, _make_api_call, hb, _save_api_response]
  · simp only [s3KeyFor, filenameBase]
    rw [if_neg (by simpa using hname)]
    rfl

/-- C7 witness: the saldos descriptor fetched on 2024-03-05 lands under the
claimed key. -/
theorem c7_witness :
    (∃ art, ("raw/saldos_20240305.json", art) ∈
        (perform_api_calls "raw" "https://api" "ts" (yyyymmdd 2024 3 5)
          [(⟨"/advisor/clients/balances/v2", some "GET", some "saldos"⟩,
            CallOutcome.success (Json.arr [Json.num 1]))]).2) :=
  (c7_amended_artifact_key "raw" "https://api" "ts" (yyyymmdd 2024 3 5)
      [(⟨"/advisor/clients/balances/v2", some "GET", some "saldos"⟩,
        CallOutcome.success (Json.arr [Json.num 1]))]
      ⟨"/advisor/clients/balances/v2", some "GET", some "saldos"⟩
      (Json.arr [Json.num 1]) rfl (List.mem_singleton.mpr rfl)
      (by decide)).1

/-- C1 counterexample: a run whose email-field wait times out makes
perform_login propagate the timeout exception to the caller (there is no
except block in the source), rather than returning an absent result. -/
theorem c1_counterexample :
    perform_login loginWorldEmailTimeout =
      Except.error (PyErr.timeout "email-selector") ∧
    perform_login loginWorldEmailTimeout ≠ Except.ok none :=
  ⟨rfl, fun h => Except.noConfusion h⟩

/-- C1 amended: a timeout (or OTP-retrieval failure) at any wait step the
run reaches aborts perform_login with an exception propagated to the
caller; perform_login raises exactly when a pre-login step fails, or when
the login status is 200 and a challenge-phase step fails. The absent
result arises only from the explicit status/URL/token checks, never from a
timeout. -/
theorem c1_amended_timeouts_propagate (w : LoginWorld) :
    (∃ e, perform_login w = Except.error e) ↔
      (preLoginOk w = false ∨
        (w.loginResponse = some 200 ∧ challengeWaitsOk w = false)) := by
  obtain ⟨g, em, pw, le, lr, cu, os, sheet, ce, cr, ec, url, sr, lo⟩ := w
  simp only [perform_login, _fill_login_form, _submit_login, _handle_otp_challenge,
    preLoginOk, challengeWaitsOk, otpFetchOk]
  cases g
  · simp
  · cases em
    · simp
    · cases pw
      · simp
      · cases le
        · simp
        · cases lr with
          | none => simp
          | some s =>
            by_cases hs : s = 200
            · subst hs
              cases cu
              · simp
              · cases os
                · simp
                · cases hw : wait_for_token sheet with
                  | error err => simp [hw]
                  | ok tok =>
                    cases ce
                    · simp [hw]
                    · cases cr with
                      | none => simp [hw]
                      | some cs =>
                        cases ec
                        · simp [hw]
                        · by_cases hc :
                            (cs == 200 && !strContains (pyLower url) "/login") = true
                          · cases hx : _extract_tokens_from_local_storage lo sr <;>
                              simp [hw, hc, hx]
                          · simp [hw, hc]
            · simp [hs]

/-- C8 counterexample: a run with challenge status 200 and a final URL free
of the login path still returns an absent result when localStorage holds no
token value, so the two stated conditions alone do not characterize the
authenticated outcome. -/
theorem c8_counterexample :
    loginWorldNoStoredTokens.challengeResponse = some 200 ∧
    strContains (pyLower loginWorldNoStoredTokens.finalUrl) "/login" = false ∧
    perform_login loginWorldNoStoredTokens = Except.ok none :=
  ⟨rfl, rfl, rfl⟩

/-- C8 amended: a login run returns a populated token pair exactly when
every reached wait succeeds, the login status is 200, the challenge status
is 200, the post-navigation URL no longer contains the login path, AND the
stored token pair extracts successfully; if any of these fails the run
returns absent (or raises, for wait failures). -/
theorem c8_amended_authenticated_iff (w : LoginWorld) (tp : TokenPair) :
    perform_login w = Except.ok (some tp) ↔
      (preLoginOk w = true ∧ w.loginResponse = some 200 ∧
       challengeWaitsOk w = true ∧ w.challengeResponse = some 200 ∧
       strContains (pyLower w.finalUrl) "/login" = false ∧
       _extract_tokens_from_local_storage w.loads w.storageRaw = some tp) := by
  obtain ⟨g, em, pw, le, lr, cu, os, sheet, ce, cr, ec, url, sr, lo⟩ := w
  simp only [perform_login, _fill_login_form, _submit_login, _handle_otp_challenge,
    preLoginOk, challengeWaitsOk, otpFetchOk]
  cases g
  · simp
  · cases em
    · simp
    · cases pw
      · simp
      · cases le
        · simp
        · cases lr with
          | none => simp
          | some s =>
            by_cases hs : s = 200
            · subst hs
              cases cu
              · simp
              · cases os
                · simp
                · cases hw : wait_for_token sheet with
                  | error err => simp [hw]
                  | ok tok =>
                    cases ce
                    · simp [hw]
                    · cases cr with
                      | none => simp [hw]
                      | some cs =>
                        cases ec
                        · simp [hw]
                        · by_cases hcs : cs = 200
                          · subst hcs
                            cases hct : strContains (pyLower url) "/login"
                            · cases hx : _extract_tokens_from_local_storage lo sr with
                              | none => simp [hw, hct, hx]
                              | some tp2 => simp [hw, hct, hx, eq_comm]
                            · simp [hw, hct]
                          · simp [hw, hcs]
            · simp [hs]

/-- C6: modelled from the spec (the Mailbox-backend extraction code is not
among the files under src). The five strategies apply in strict priority
order: a strategy that yields a candidate decides the result and absence of
all candidates yields absent; within the candidates of a strategy a run of
six or more digits is preferred over shorter ones; and the concrete text
holding both a bare six-digit run and a keyword-prefixed four-digit run
yields the six-digit run. -/
theorem c6_extraction_priority :
    (∀ (t : String) (d : List Char),
       stratPick strat1 t.data = some d → extract_code t = some (String.mk d)) ∧
    (∀ (t : String) (d : List Char),
       stratPick strat1 t.data = none → stratPick strat2 t.data = some d →
       extract_code t = some (String.mk d)) ∧
    (∀ (t : String) (d : List Char),
       stratPick strat1 t.data = none → stratPick strat2 t.data = none →
       stratPick strat3 t.data = some d → extract_code t = some (String.mk d)) ∧
    (∀ (t : String) (d : List Char),
       stratPick strat1 t.data = none → stratPick strat2 t.data = none →
       stratPick strat3 t.data = none → stratPick strat4 t.data = some d →
       extract_code t = some (String.mk d)) ∧
    (∀ t : String,
       stratPick strat1 t.data = none → stratPick strat2 t.data = none →
       stratPick strat3 t.data = none → stratPick strat4 t.data = none →
       extract_code t = none) ∧
    (∀ (rs : List DigitRun) (r : DigitRun), r ∈ rs → 6 ≤ r.digits.length →
       ∃ d, pickPreferred rs = some d ∧ 6 ≤ d.length) ∧
    extract_code "code: 4321 y 123456" = some "123456" := by
  refine ⟨?_, ?_, ?_, ?_, ?_, ?_, rfl⟩
  · intro t d h1
    simp [extract_code, h1]
  · intro t d h1 h2
    simp [extract_code, h1, h2]
  · intro t d h1 h2 h3
    simp [extract_code, h1, h2, h3]
  · intro t d h1 h2 h3 h4
    simp [extract_code, h1, h2, h3, h4]
  · intro t h1 h2 h3 h4
    simp [extract_code, h1, h2, h3, h4]
  · intro rs r hr h6
    unfold pickPreferred
    cases hf : rs.find? (fun r => decide (6 ≤ r.digits.length)) with
    | none =>
      exact absurd (decide_eq_true h6) (List.find?_eq_none.mp hf r hr)
    | some r2 =>
      have hp := List.find?_some hf
      exact ⟨r2.digits, rfl, of_decide_eq_true hp⟩

/-- C6 witness: a bare six-digit text is extracted by strategy 1. -/
theorem c6_witness : extract_code "123456" = some "123456" :=
  c6_extraction_priority.1 "123456" "123456".data rfl
